import Mathlib

/-!
Shallow embedding of the go-data-transfer manager (`impl` package) and the
push-channel monitor (`pushchannelmonitor` package), as found in
`src/impl/impl.go`.  Stateful Go methods are modelled as pure functions from
an explicit environment (the outcomes of the external calls the method makes:
store lookups, transport operations, network sends, state-machine updates)
to the returned error together with a trace of the side effects the method
performs.  Go `uint64`/`uint32` arithmetic is modelled on `Nat` with explicit
`% 2^64` / `% 2^32` where the code can wrap.
-/

namespace DataTransfer

/-- Go error values.  `wrap msg cause` models `fmt.Errorf("msg: %w", cause)` /
`xerrors.Errorf`; `base` models a leaf error such as `errors.New`. -/
inductive GoErr where
  | base (msg : String)
  | wrap (msg : String) (cause : GoErr)
deriving DecidableEq, Repr

/-- `datatransfer.ChannelID`: (initiator, responder, transfer id). -/
structure ChannelID where
  initiator : String
  responder : String
  tid : Nat
deriving DecidableEq, Repr

/-- The zero value `datatransfer.ChannelID{}` returned on early failures. -/
def zeroChannelID : ChannelID := ⟨"", "", 0⟩

/-! ## Push channel monitor: configuration (`pushchannelmonitor.Config`) -/

/-- `pushchannelmonitor.Config`.  Durations (`time.Duration`, an int64 of
nanoseconds, possibly negative) are modelled as `Int`; `MinBytesSent` is a
`uint64` and `ChecksPerInterval` / `MaxConsecutiveRestarts` are `uint32`,
modelled as `Nat`. -/
structure Config where
  acceptTimeout : Int
  interval : Int
  minBytesSent : Nat
  checksPerInterval : Nat
  restartBackoff : Int
  maxConsecutiveRestarts : Nat
  completeTimeout : Int
deriving DecidableEq, Repr

/-- `checkConfig(cfg)`: returns `true` when the function panics (rejects the
configuration).  A `nil` config (`none`) is accepted immediately.  The checks,
in source order: `AcceptTimeout <= 0`, `Interval <= 0`,
`ChecksPerInterval == 0`, `MinBytesSent == 0`, `MaxConsecutiveRestarts == 0`,
`CompleteTimeout <= 0`.  (`RestartBackoff` is not checked.) -/
def checkConfigRejects : Option Config → Bool
  | none => false
  | some cfg =>
    decide (cfg.acceptTimeout ≤ 0) || decide (cfg.interval ≤ 0) ||
    decide (cfg.checksPerInterval = 0) || decide (cfg.minBytesSent = 0) ||
    decide (cfg.maxConsecutiveRestarts = 0) || decide (cfg.completeTimeout ≤ 0)

/-- `pushchannelmonitor.Monitor`: the config pointer and the set of monitored
channels (as a list of channel ids). -/
structure Monitor where
  cfg : Option Config
  channels : List ChannelID
deriving DecidableEq, Repr

/-- `NewMonitor(mgr, cfg)`: first runs `checkConfig` (which panics on a bad
config, modelled as `none`, i.e. construction does not return normally);
otherwise returns a monitor with an empty channel set. -/
def newMonitor (cfg : Option Config) : Option Monitor :=
  if checkConfigRejects cfg then none else some ⟨cfg, []⟩

/-- `Monitor.enabled()`: `m.cfg != nil`. -/
def Monitor.enabled (m : Monitor) : Bool := m.cfg.isSome

/-- `Monitor.AddChannel(chid)`: when the monitor is disabled it returns `nil`
(`none`) and changes nothing; otherwise it creates a monitored channel,
records it in the channel set, and returns the handle. -/
def Monitor.addChannel (m : Monitor) (chid : ChannelID) : Monitor × Option ChannelID :=
  if m.enabled then ({ m with channels := m.channels ++ [chid] }, some chid)
  else (m, none)

/-- `Monitor.Start()`: returns `true` iff it spawns the `run` loop (which is
what performs the periodic data-rate checks); when the monitor is disabled it
returns immediately without spawning anything. -/
def Monitor.startsRunLoop (m : Monitor) : Bool := m.enabled

/-! ## Push channel monitor: data-rate checking (`monitoredChannel.checkDataRate`) -/

/-- Wraparound bound of Go `uint64`. -/
def U64 : Nat := 2 ^ 64

/-- Wraparound bound of Go `uint32`. -/
def U32 : Nat := 2 ^ 32

/-- Go `uint64` subtraction `a - b` (wrapping), for `a b < U64`. -/
def sub64 (a b : Nat) : Nat := (a + U64 - b) % U64

/-- `dataRatePoint`: `(pending, sent)`, both `uint64`. -/
structure DataRatePoint where
  pending : Nat
  sent : Nat
deriving DecidableEq, Repr

/-- The stats of a `monitoredChannel` read and written by `checkDataRate`:
the byte counters last observed from `DataQueued`/`DataSent` events and the
buffered channel of data-rate points (front of the list = front of the Go
channel queue). -/
structure MonChanState where
  queued : Nat
  sent : Nat
  dataRatePoints : List DataRatePoint
deriving DecidableEq, Repr

/-- The deferred computation in `checkDataRate` that builds the new data-rate
point: `pending = mc.queued - mc.sent` (a `uint64` subtraction) guarded by
`mc.queued > mc.sent`, else `0`. -/
def pendingBytes (queued sent : Nat) : Nat :=
  if sent < queued then sub64 queued sent else 0

/-- `monitoredChannel.checkDataRate()`: returns the updated stats and whether
a restart was triggered (`go mc.restartChannel()`).  If the buffer holds
fewer than `ChecksPerInterval` points, only the new point is appended
(by the deferred push).  Otherwise the oldest point `S` is popped,
`sentInInterval = mc.sent - S.sent` (`uint64` subtraction) is computed, and a
restart is triggered iff `S.pending > sentInInterval` and
`sentInInterval < MinBytesSent`; the deferred push then appends the new
point.  (The empty-buffer branch under a full-length check is unreachable:
it needs `ChecksPerInterval = 0`, which `checkConfig` rejects.) -/
def checkDataRate (cfg : Config) (st : MonChanState) : MonChanState × Bool :=
  let newPoint : DataRatePoint := ⟨pendingBytes st.queued st.sent, st.sent⟩
  if st.dataRatePoints.length < cfg.checksPerInterval then
    ({ st with dataRatePoints := st.dataRatePoints ++ [newPoint] }, false)
  else
    match st.dataRatePoints with
    | [] => ({ st with dataRatePoints := [newPoint] }, false)
    | s :: rest =>
      let sentInInterval := sub64 st.sent s.sent
      let restart := decide (sentInInterval < s.pending) && decide (sentInInterval < cfg.minBytesSent)
      ({ st with dataRatePoints := rest ++ [newPoint] }, restart)

/-! ## Push channel monitor: restart logic (`monitoredChannel.restartChannel`) -/

/-- The outcome of one call to `monitoredChannel.restartChannel()`. -/
inductive RestartAction where
  /-- `restartedAt` was already set: the call logs and returns (a restart is
  already in progress). -/
  | alreadyRestarting
  /-- The consecutive-restart limit was exceeded: `closeChannelAndShutdown`
  is called, which calls `mgr.CloseDataTransferChannelWithError` and then
  `Shutdown`; `mgr.RestartDataTransferChannel` is not called. -/
  | closeAndShutdown
  /-- `mgr.RestartDataTransferChannel` is called (then back-off). -/
  | sendRestart
deriving DecidableEq, Repr

/-- `monitoredChannel.restartChannel()`: given whether `restartedAt` was
already non-zero and the current `consecutiveRestarts` counter (a Go `int`,
kept as `Nat`), returns the updated counter and the action taken.  The limit
test in the source is `uint32(restartCount) > mc.cfg.MaxConsecutiveRestarts`,
a truncating cast modelled as `% U32`. -/
def restartChannelStep (cfg : Config) (alreadyRestarting : Bool)
    (consecutiveRestarts : Nat) : Nat × RestartAction :=
  if alreadyRestarting then (consecutiveRestarts, .alreadyRestarting)
  else
    let restartCount := consecutiveRestarts + 1
    if cfg.maxConsecutiveRestarts < restartCount % U32 then
      (restartCount, .closeAndShutdown)
    else
      (restartCount, .sendRestart)

/-! ## Push channel monitor: event subscription (`monitoredChannel.start`) -/

/-- The `datatransfer.EventCode`s the monitor's subscriber switches on. -/
inductive EventCode where
  | accept
  | error
  | dataQueued
  | dataSent
  | finishTransfer
  | other
deriving DecidableEq, Repr

/-- Side effects of one invocation of the subscriber installed by
`monitoredChannel.start`. -/
inductive MonitorEffect where
  | shutdown
  | cancelAcceptTimer
  | restartChannel
  | watchResponderComplete
deriving DecidableEq, Repr

/-- The subscriber installed by `monitoredChannel.start`: given whether the
event is for this channel, whether the channel state is cleaning-up or
terminated, the event code and the state's `Queued()`/`Sent()` counters, it
updates the monitored channel's stats `(queued, sent, consecutiveRestarts)`
and produces effects.  Events for other channels are ignored; a
cleaning-up/terminated state shuts the monitor entry down before the event
switch; `DataSent` records the sent counter and resets
`consecutiveRestarts` to `0`. -/
def onEvent (sameChannel : Bool) (cleaningUpOrTerminated : Bool)
    (evt : EventCode) (csQueued csSent : Nat)
    (queued sent consecutiveRestarts : Nat) :
    (Nat × Nat × Nat) × List MonitorEffect :=
  if !sameChannel then ((queued, sent, consecutiveRestarts), [])
  else if cleaningUpOrTerminated then ((queued, sent, consecutiveRestarts), [.shutdown])
  else
    match evt with
    | .accept => ((queued, sent, consecutiveRestarts), [.cancelAcceptTimer])
    | .error => ((queued, sent, consecutiveRestarts), [.restartChannel])
    | .dataQueued => ((csQueued, sent, consecutiveRestarts), [])
    | .dataSent => ((queued, csSent, 0), [])
    | .finishTransfer => ((queued, sent, consecutiveRestarts), [.watchResponderComplete])
    | .other => ((queued, sent, consecutiveRestarts), [])

/-! ## Manager: `CloseDataTransferChannel` -/

/-- Outcomes of the external calls made by `manager.CloseDataTransferChannel`:
the store lookup, the transport close, the network send of the cancel
message, and the `Cancel` event on the channel state machine. -/
structure CloseEnv where
  getByIDErr : Option GoErr
  closeChannelErr : Option GoErr
  sendMessageErr : Option GoErr
  cancelFsmErr : Option GoErr
deriving DecidableEq, Repr

/-- Side effects of `manager.CloseDataTransferChannel`. -/
inductive CloseEffect where
  | transportCloseChannel
  | logWarn (e : GoErr)
  | sendCancelMessage
  | onRequestDisconnected
  | fsmCancel
deriving DecidableEq, Repr

/-- `manager.CloseDataTransferChannel(ctx, chid)`: looks the channel up
(returning the lookup error on failure), closes the transport channel
(logging any error), sends the cancel message (on failure: wraps the error,
calls `OnRequestDisconnected`, logs), fires `Cancel` on the state machine,
then returns the wrapped send error if the send failed, else the wrapped
state-machine error if `Cancel` failed, else `nil`. -/
def closeDataTransferChannel (env : CloseEnv) : Option GoErr × List CloseEffect :=
  match env.getByIDErr with
  | some e => (some e, [])
  | none =>
    let closeFx : List CloseEffect :=
      [.transportCloseChannel] ++
        (match env.closeChannelErr with
         | some e => [.logWarn e]
         | none => [])
    let sendRes : Option GoErr × List CloseEffect :=
      match env.sendMessageErr with
      | some e =>
        let werr := GoErr.wrap "unable to send cancel message for channel" e
        (some werr, [.sendCancelMessage, .onRequestDisconnected, .logWarn werr])
      | none => (none, [.sendCancelMessage])
    let fx := closeFx ++ sendRes.2 ++ [.fsmCancel]
    match sendRes.1 with
    | some e => (some e, fx)
    | none =>
      match env.cancelFsmErr with
      | some fsmerr => (some (GoErr.wrap "unable to send cancel to channel FSM" fsmerr), fx)
      | none => (none, fx)

/-! ## Manager: `CloseDataTransferChannelWithError` -/

/-- Outcomes of the external calls made by
`manager.CloseDataTransferChannelWithError`. -/
structure CloseWithErrorEnv where
  getByIDErr : Option GoErr
  closeChannelErr : Option GoErr
  sendMessageErr : Option GoErr
  errorFsmErr : Option GoErr
deriving DecidableEq, Repr

/-- Side effects of `manager.CloseDataTransferChannelWithError`.
`fsmError e` is the `Error` event fired on the state machine, carrying `e`. -/
inductive CloseWErrEffect where
  | transportCloseChannel
  | logWarn (e : GoErr)
  | sendCancelMessage
  | fsmError (e : GoErr)
deriving DecidableEq, Repr

/-- `manager.CloseDataTransferChannelWithError(ctx, chid, cherr)`: looks the
channel up (returning the lookup error on failure), closes the transport
channel (logging any error), sends the cancel message (on failure: only logs
a warning), fires `Error(cherr)` on the state machine, and returns the
wrapped state-machine error if that failed, else `nil`. -/
def closeDataTransferChannelWithError (env : CloseWithErrorEnv) (cherr : GoErr) :
    Option GoErr × List CloseWErrEffect :=
  match env.getByIDErr with
  | some e => (some e, [])
  | none =>
    let closeFx : List CloseWErrEffect :=
      [.transportCloseChannel] ++
        (match env.closeChannelErr with
         | some e => [.logWarn e]
         | none => [])
    let sendFx : List CloseWErrEffect :=
      match env.sendMessageErr with
      | some e => [.sendCancelMessage, .logWarn e]
      | none => [.sendCancelMessage]
    let fx := closeFx ++ sendFx ++ [.fsmError cherr]
    match env.errorFsmErr with
    | some e => (some (GoErr.wrap "unable to send error to channel FSM" e), fx)
    | none => (none, fx)

/-! ## Manager: `OpenPushDataChannel` -/

/-- Outcomes of the external calls made by `manager.OpenPushDataChannel`:
building the `NewRequest`, `channels.CreateNew` (which also yields the new
channel id), whether a transport configurer is registered for the voucher
type, whether the push channel monitor is enabled (so `AddChannel` returns a
non-nil monitored channel), and the network send of the request. -/
structure OpenPushEnv where
  newRequestErr : Option GoErr
  createNewErr : Option GoErr
  chid : ChannelID
  hasTransportConfigurer : Bool
  monitorEnabled : Bool
  sendErr : Option GoErr
deriving DecidableEq, Repr

/-- Side effects of `manager.OpenPushDataChannel`. -/
inductive OpenPushEffect where
  | runTransportConfigurer
  | protectConnection
  | monitorAddChannel
  | sendNewRequest
  | fsmError (e : GoErr)
  | monitorShutdown
deriving DecidableEq, Repr

/-- `manager.OpenPushDataChannel(ctx, requestTo, voucher, baseCid, selector)`:
builds the request (early-returning the zero channel id on failure), creates
the channel record (early-returning the id with the error on failure), runs
the transport configurer if registered, protects the connection, adds the
channel to the push monitor, and sends the request.  If the send fails the
error is wrapped, `channels.Error(chid, err)` is fired, the monitored channel
is shut down when it is non-nil, and the (still valid) channel id is returned
with the error. -/
def openPushDataChannel (env : OpenPushEnv) :
    ChannelID × Option GoErr × List OpenPushEffect :=
  match env.newRequestErr with
  | some e => (zeroChannelID, some e, [])
  | none =>
    match env.createNewErr with
    | some e => (env.chid, some e, [])
    | none =>
      let cfgFx : List OpenPushEffect :=
        if env.hasTransportConfigurer then [.runTransportConfigurer] else []
      let addFx : List OpenPushEffect :=
        if env.monitorEnabled then [.monitorAddChannel] else []
      let preFx := cfgFx ++ [.protectConnection] ++ addFx
      match env.sendErr with
      | some e =>
        let werr := GoErr.wrap "Unable to send request" e
        let shutdownFx : List OpenPushEffect :=
          if env.monitorEnabled then [.monitorShutdown] else []
        (env.chid, some werr, preFx ++ [.sendNewRequest, .fsmError werr] ++ shutdownFx)
      | none => (env.chid, none, preFx ++ [.sendNewRequest])

/-! ## Manager: `SendVoucher` -/

/-- Outcomes of the external calls made by `manager.SendVoucher`: the store
lookup, whether the channel id's initiator is the local peer, building the
`VoucherRequest` message, the network send, and `channels.NewVoucher`. -/
structure SendVoucherEnv where
  getByIDErr : Option GoErr
  initiatorIsSelf : Bool
  voucherRequestErr : Option GoErr
  sendErr : Option GoErr
  newVoucherErr : Option GoErr
deriving DecidableEq, Repr

/-- Side effects of `manager.SendVoucher`.  `recordNewVoucher v` is the
`NewVoucher` event recorded on the channel. -/
inductive SendVoucherEffect where
  | sendVoucherRequest (v : String)
  | onRequestDisconnected
  | recordNewVoucher (v : String)
deriving DecidableEq, Repr

/-- `manager.SendVoucher(ctx, channelID, voucher)`: looks the channel up
(early return on error), rejects when `channelID.Initiator != m.peerID`,
builds the `VoucherRequest` (early return on error), sends it (on failure:
wraps the error, calls `OnRequestDisconnected`, returns without recording a
voucher), and only then records `NewVoucher`, returning its error. -/
def sendVoucher (env : SendVoucherEnv) (voucher : String) :
    Option GoErr × List SendVoucherEffect :=
  match env.getByIDErr with
  | some e => (some e, [])
  | none =>
    if !env.initiatorIsSelf then
      (some (GoErr.base "cannot send voucher for request we did not initiate"), [])
    else
      match env.voucherRequestErr with
      | some e => (some e, [])
      | none =>
        match env.sendErr with
        | some e =>
          (some (GoErr.wrap "Unable to send request" e),
            [.sendVoucherRequest voucher, .onRequestDisconnected])
        | none =>
          (env.newVoucherErr,
            [.sendVoucherRequest voucher, .recordNewVoucher voucher])

/-! ## Manager: restart dispatch (`RestartDataTransferChannel`,
`channelDataTransferType`) -/

/-- Channel statuses (`datatransfer.Status`), as listed in the spec §4.2. -/
inductive Status where
  | Requested
  | Ongoing
  | TransferFinished
  | ResponderCompleted
  | Finalizing
  | Completing
  | Completed
  | Failing
  | Failed
  | Cancelling
  | Cancelled
  | InitiatorPaused
  | ResponderPaused
  | BothPaused
deriving DecidableEq, Repr

/-- Modelled from the spec: `channels.IsChannelTerminated` lives in the
`channels` package, which is not part of the source slice; spec §4.2 defines
the Terminal classifier as {Completed, Cancelled, Failed}. -/
def IsChannelTerminated : Status → Bool
  | .Completed | .Cancelled | .Failed => true
  | _ => false

/-- Modelled from the spec: `channels.IsChannelCleaningUp` lives in the
`channels` package, which is not part of the source slice; spec §4.2 defines
the CleaningUp classifier as {Finalizing, Completing, Failing, Cancelling}. -/
def IsChannelCleaningUp : Status → Bool
  | .Finalizing | .Completing | .Failing | .Cancelling => true
  | _ => false

/-- `ChannelDataTransferType`: the role of the local peer on a channel. -/
inductive ChannelDataTransferType where
  | ManagerPeerCreatePush
  | ManagerPeerCreatePull
  | ManagerPeerReceivePush
  | ManagerPeerReceivePull
deriving DecidableEq, Repr

/-- `manager.channelDataTransferType(channel)`: derived from
`channel.IsPull()` and whether `channel.ChannelID().Initiator` equals the
local peer id. -/
def channelDataTransferType (isPull initiatorIsSelf : Bool) : ChannelDataTransferType :=
  if isPull then
    if initiatorIsSelf then .ManagerPeerCreatePull else .ManagerPeerReceivePull
  else
    if initiatorIsSelf then .ManagerPeerCreatePush else .ManagerPeerReceivePush

/-- Which restart action `manager.RestartDataTransferChannel` dispatches. -/
inductive RestartDispatch where
  /-- Terminal status (or lookup failure): return with no action. -/
  | nothing
  | completeCleanupOnRestart
  | restartManagerPeerReceivePush
  | restartManagerPeerReceivePull
  | openPullRestartChannel
  | openPushRestartChannel
deriving DecidableEq, Repr

/-- `manager.RestartDataTransferChannel(ctx, chid)`: fetches the channel
(early return of the wrapped error on failure), does nothing when the status
is terminated, calls `CompleteCleanupOnRestart` when it is cleaning up, and
otherwise dispatches on `channelDataTransferType`. -/
def restartDataTransferChannel (getByIDErr : Option GoErr) (status : Status)
    (isPull initiatorIsSelf : Bool) : Option GoErr × RestartDispatch :=
  match getByIDErr with
  | some e => (some (GoErr.wrap "failed to fetch channel" e), .nothing)
  | none =>
    if IsChannelTerminated status then (none, .nothing)
    else if IsChannelCleaningUp status then (none, .completeCleanupOnRestart)
    else
      match channelDataTransferType isPull initiatorIsSelf with
      | .ManagerPeerReceivePush => (none, .restartManagerPeerReceivePush)
      | .ManagerPeerReceivePull => (none, .restartManagerPeerReceivePull)
      | .ManagerPeerCreatePull => (none, .openPullRestartChannel)
      | .ManagerPeerCreatePush => (none, .openPushRestartChannel)

/-! ## Helper lemmas -/

/-- Go `uint64` subtraction agrees with truncated `Nat` subtraction when the
minuend is in range and at least the subtrahend. -/
theorem sub64_eq_of_le {a b : Nat} (hba : b ≤ a) (ha : a < U64) :
    sub64 a b = a - b := by
  unfold sub64
  have h1 : a + U64 - b = a - b + U64 := by omega
  rw [h1, Nat.add_mod_right]
  exact Nat.mod_eq_of_lt (by omega)

/-- The guarded pending computation equals truncated `Nat` subtraction. -/
theorem pendingBytes_eq {queued sent : Nat} (hq : queued < U64) :
    pendingBytes queued sent = queued - sent := by
  unfold pendingBytes
  by_cases h : sent < queued
  · rw [if_pos h, sub64_eq_of_le (Nat.le_of_lt h) hq]
  · rw [if_neg h]
    omega

/-! ## Claim C1 -/

/-- C1 counterexample: in `CloseDataTransferChannel`, when sending the cancel
message to the remote peer fails (`sendMessageErr` set) and the `Cancel`
event on the state machine succeeds (`cancelFsmErr = nil`), the claim says
the send error is only logged and the returned error is exactly the
state-machine error, i.e. `nil` — but the code returns the wrapped send
error. -/
theorem closeChannel_send_error_returned_cex :
    (closeDataTransferChannel
        ⟨none, none, some (GoErr.base "network send failed"), none⟩).1 =
      some (GoErr.wrap "unable to send cancel message for channel"
        (GoErr.base "network send failed")) ∧
    (⟨none, none, some (GoErr.base "network send failed"), none⟩ : CloseEnv).cancelFsmErr
      = none := by
  exact ⟨rfl, rfl⟩

/-- C1 amended: in `CloseDataTransferChannel`, an error from closing the
transport channel is only logged and never returned; the `Cancel` event is
always fired on the state machine; but an error from sending the cancel
message to the remote peer is returned to the caller (wrapped), taking
precedence over the state-machine error, and the state-machine error
(wrapped) is returned only when the cancel send succeeded. -/
theorem closeChannel_error_precedence (env : CloseEnv) (h : env.getByIDErr = none) :
    CloseEffect.fsmCancel ∈ (closeDataTransferChannel env).2 ∧
    (closeDataTransferChannel env).1 =
      (match env.sendMessageErr with
       | some e => some (GoErr.wrap "unable to send cancel message for channel" e)
       | none =>
         match env.cancelFsmErr with
         | some f => some (GoErr.wrap "unable to send cancel to channel FSM" f)
         | none => none) := by
  obtain ⟨g, c, s, f⟩ := env
  simp only at h
  subst h
  cases c <;> cases s <;> cases f <;>
    simp [closeDataTransferChannel]

/-- Witness for C1's amended theorem at a concrete environment. -/
theorem closeChannel_error_precedence_witness :
    CloseEffect.fsmCancel ∈
      (closeDataTransferChannel ⟨none, some (GoErr.base "close failed"), none, none⟩).2 ∧
    (closeDataTransferChannel ⟨none, some (GoErr.base "close failed"), none, none⟩).1
      = none :=
  closeChannel_error_precedence ⟨none, some (GoErr.base "close failed"), none, none⟩ rfl

/-! ## Claim C2 -/

/-- C2: on a monitor check tick, when the sample buffer already holds
`ChecksPerInterval` samples, a restart is triggered iff for the popped oldest
sample `s`, `s.pending > sent - s.sent` and `sent - s.sent < MinBytesSent`;
and in every case (full or not-yet-full buffer) exactly one new sample
`(queued - sent, sent)` is appended after the check.  The hypotheses say the
byte counters are in `uint64` range and the recorded samples' sent counters
do not exceed the current one (the sent counter only grows). -/
theorem checkDataRate_restart_iff (cfg : Config) (st : MonChanState)
    (hq : st.queued < U64) (hs : st.sent < U64)
    (hmono : ∀ p ∈ st.dataRatePoints, p.sent ≤ st.sent) :
    ((checkDataRate cfg st).1.dataRatePoints =
      (if st.dataRatePoints.length < cfg.checksPerInterval then st.dataRatePoints
       else st.dataRatePoints.tail) ++ [⟨st.queued - st.sent, st.sent⟩]) ∧
    (st.dataRatePoints.length = cfg.checksPerInterval →
      ∀ s rest, st.dataRatePoints = s :: rest →
        ((checkDataRate cfg st).2 = true ↔
          st.sent - s.sent < s.pending ∧ st.sent - s.sent < cfg.minBytesSent)) := by
  obtain ⟨q, snt, pts⟩ := st
  simp only at hq hs hmono ⊢
  constructor
  · by_cases hlt : pts.length < cfg.checksPerInterval
    · simp [checkDataRate, hlt, pendingBytes_eq hq]
    · cases pts with
      | nil => simp [checkDataRate, hlt, pendingBytes_eq hq]
      | cons s rest =>
        simp only [List.length_cons] at hlt
        simp [checkDataRate, hlt, pendingBytes_eq hq]
  · intro hlen s rest hcons
    subst hcons
    have hlt : ¬ (rest.length + 1 < cfg.checksPerInterval) := by
      simp only [List.length_cons] at hlen
      omega
    have hsent : s.sent ≤ snt := hmono s (List.mem_cons_self s rest)
    simp [checkDataRate, hlt, sub64_eq_of_le hsent hs]

/-- Witness for C2 at a concrete state: one sample in the buffer,
`ChecksPerInterval = 1`, `queued = 100`, `sent = 10`, oldest sample
`(pending 50, sent 0)`: the buffer is full, `sent - s.sent = 10 < 50` and
`10 < MinBytesSent = 20`, so a restart is triggered and the new sample is
`(90, 10)`. -/
theorem checkDataRate_restart_iff_witness :
    (checkDataRate ⟨1, 1, 20, 1, 0, 1, 1⟩ ⟨100, 10, [⟨50, 0⟩]⟩).1.dataRatePoints
      = [⟨90, 10⟩] ∧
    ((checkDataRate ⟨1, 1, 20, 1, 0, 1, 1⟩ ⟨100, 10, [⟨50, 0⟩]⟩).2 = true ↔
      (10:Nat) - 0 < 50 ∧ (10:Nat) - 0 < 20) := by
  have h := checkDataRate_restart_iff ⟨1, 1, 20, 1, 0, 1, 1⟩ ⟨100, 10, [⟨50, 0⟩]⟩
    (by norm_num [U64]) (by norm_num [U64])
    (by intro p hp; simp at hp; subst hp; simp)
  refine ⟨?_, h.2 rfl ⟨50, 0⟩ [] rfl⟩
  have h1 := h.1
  simpa using h1

/-! ## Claim C9 -/

/-- C9: the pending value recorded in the new data-rate sample appended by
`checkDataRate` is `queued - sent` when `queued > sent` and `0` otherwise, so
the `uint64` subtraction never underflows (the result is the mathematical
truncated difference and stays below `2^64`) even if the observed sent
counter exceeds the observed queued counter. -/
theorem checkDataRate_pending_no_underflow (cfg : Config) (st : MonChanState)
    (hq : st.queued < U64) :
    ∃ pt : DataRatePoint,
      (checkDataRate cfg st).1.dataRatePoints.getLast? = some pt ∧
      pt.pending = (if st.sent < st.queued then st.queued - st.sent else 0) ∧
      pt.pending < U64 ∧ pt.sent = st.sent := by
  refine ⟨⟨pendingBytes st.queued st.sent, st.sent⟩, ?_, ?_, ?_, rfl⟩
  · unfold checkDataRate
    by_cases hlt : st.dataRatePoints.length < cfg.checksPerInterval
    · simp [hlt, List.getLast?_concat]
    · cases hcons : st.dataRatePoints with
      | nil => simp [hlt, hcons]
      | cons s rest =>
        rw [hcons] at hlt
        simp only [List.length_cons] at hlt
        simp [hlt, hcons, List.getLast?_concat]
  · show pendingBytes st.queued st.sent = _
    rw [pendingBytes_eq hq]
    by_cases h : st.sent < st.queued
    · simp [h]
    · simp [h]
      omega
  · show pendingBytes st.queued st.sent < U64
    rw [pendingBytes_eq hq]
    omega

/-- Witness for C9 at a concrete state where `sent > queued` (counters out of
order): the recorded pending value is `0`, not a wrapped-around huge value. -/
theorem checkDataRate_pending_no_underflow_witness :
    ∃ pt : DataRatePoint,
      (checkDataRate ⟨1, 1, 20, 2, 0, 1, 1⟩ ⟨5, 7, []⟩).1.dataRatePoints.getLast?
        = some pt ∧
      pt.pending = (if (7:Nat) < 5 then 5 - 7 else 0) ∧
      pt.pending < U64 ∧ pt.sent = 7 :=
  checkDataRate_pending_no_underflow ⟨1, 1, 20, 2, 0, 1, 1⟩ ⟨5, 7, []⟩
    (by norm_num [U64])

/-! ## Claim C3 -/

/-- C3: when a restart attempt (with no restart already in progress)
increments the consecutive-restart counter past `MaxConsecutiveRestarts`,
`restartChannel` takes the close-and-shutdown path — it calls
`CloseDataTransferChannelWithError` and shuts the monitor entry down instead
of calling `RestartDataTransferChannel` — and the subscriber resets the
counter to zero on any observed `DataSent` event (for this channel, outside
the cleaning-up/terminated shutdown branch). -/
theorem restart_limit_closes_channel (cfg : Config) (cr : Nat)
    (hrange : cr + 1 < U32) (hlim : cfg.maxConsecutiveRestarts < cr + 1) :
    restartChannelStep cfg false cr = (cr + 1, RestartAction.closeAndShutdown) ∧
    RestartAction.closeAndShutdown ≠ RestartAction.sendRestart ∧
    (∀ csQueued csSent queued sent c,
      (onEvent true false EventCode.dataSent csQueued csSent queued sent c).1
        = (queued, csSent, 0)) := by
  refine ⟨?_, by simp, by intro csQueued csSent queued sent c; rfl⟩
  unfold restartChannelStep
  rw [if_neg (by simp)]
  simp only [Nat.mod_eq_of_lt hrange]
  rw [if_pos hlim]

/-- Witness for C3: with `MaxConsecutiveRestarts = 1` and a counter of `1`
(one failed restart already), the next restart attempt takes the
close-and-shutdown path with the counter at `2`. -/
theorem restart_limit_closes_channel_witness :
    restartChannelStep ⟨1, 1, 20, 2, 0, 1, 1⟩ false 1
      = (2, RestartAction.closeAndShutdown) ∧
    RestartAction.closeAndShutdown ≠ RestartAction.sendRestart ∧
    (∀ csQueued csSent queued sent c,
      (onEvent true false EventCode.dataSent csQueued csSent queued sent c).1
        = (queued, csSent, 0)) :=
  restart_limit_closes_channel ⟨1, 1, 20, 2, 0, 1, 1⟩ 1
    (by norm_num [U32]) (by norm_num)

/-! ## Claim C4 -/

/-- C4 counterexample: a configuration with `RestartBackoff = 0` (not
strictly positive) and every other field strictly positive is accepted by
`checkConfig`, so it is not the case that the constructor rejects exactly
when at least one of the seven listed fields is not strictly positive. -/
theorem checkConfig_restartBackoff_cex :
    ¬ (checkConfigRejects (some ⟨1, 1, 1, 1, 0, 1, 1⟩) = true ↔
       ((1:Int) ≤ 0 ∨ (1:Int) ≤ 0 ∨ (1:Nat) = 0 ∨ (1:Nat) = 0 ∨
        (0:Int) ≤ 0 ∨ (1:Nat) = 0 ∨ (1:Int) ≤ 0)) := by
  decide

/-- C4 amended: for every non-nil push-monitor configuration, `NewMonitor`
rejects the configuration (construction does not return normally, because
`checkConfig` panics) iff at least one of `AcceptTimeout`, `Interval`,
`ChecksPerInterval`, `MinBytesSent`, `MaxConsecutiveRestarts`,
`CompleteTimeout` is not strictly positive; `RestartBackoff` is not
checked. -/
theorem checkConfig_rejects_iff (cfg : Config) :
    (newMonitor (some cfg) = none ↔ checkConfigRejects (some cfg) = true) ∧
    (checkConfigRejects (some cfg) = true ↔
      (cfg.acceptTimeout ≤ 0 ∨ cfg.interval ≤ 0 ∨ cfg.checksPerInterval = 0 ∨
       cfg.minBytesSent = 0 ∨ cfg.maxConsecutiveRestarts = 0 ∨
       cfg.completeTimeout ≤ 0)) := by
  constructor
  · by_cases h : checkConfigRejects (some cfg) = true <;> simp [newMonitor, h]
  · simp [checkConfigRejects, Bool.or_eq_true, decide_eq_true_iff, or_assoc]

/-! ## Claim C5 -/

/-- C5: in `CloseDataTransferChannelWithError`, the `Error` event fired on
the state machine carries exactly the caller's error `cherr`, regardless of
whether closing the transport channel or sending the cancel message fails;
those later failures are only logged and never replace `cherr` (and, unlike
`CloseDataTransferChannel`, the send error is never returned either: the
return value depends only on the state-machine error). -/
theorem closeWithError_preserves_error (env : CloseWithErrorEnv) (cherr : GoErr)
    (h : env.getByIDErr = none) :
    CloseWErrEffect.fsmError cherr ∈ (closeDataTransferChannelWithError env cherr).2 ∧
    (∀ e, CloseWErrEffect.fsmError e ∈ (closeDataTransferChannelWithError env cherr).2
      → e = cherr) ∧
    (closeDataTransferChannelWithError env cherr).1 =
      (match env.errorFsmErr with
       | some f => some (GoErr.wrap "unable to send error to channel FSM" f)
       | none => none) := by
  obtain ⟨g, c, s, f⟩ := env
  simp only at h
  subst h
  cases c <;> cases s <;> cases f <;>
    simp [closeDataTransferChannelWithError]

/-- Witness for C5 at a concrete environment where both the transport close
and the cancel send fail: the fired `Error` event still carries the original
error. -/
theorem closeWithError_preserves_error_witness :
    CloseWErrEffect.fsmError (GoErr.base "stalled") ∈
      (closeDataTransferChannelWithError
        ⟨none, some (GoErr.base "close failed"), some (GoErr.base "send failed"), none⟩
        (GoErr.base "stalled")).2 ∧
    (∀ e, CloseWErrEffect.fsmError e ∈
        (closeDataTransferChannelWithError
          ⟨none, some (GoErr.base "close failed"), some (GoErr.base "send failed"), none⟩
          (GoErr.base "stalled")).2 → e = GoErr.base "stalled") ∧
    (closeDataTransferChannelWithError
        ⟨none, some (GoErr.base "close failed"), some (GoErr.base "send failed"), none⟩
        (GoErr.base "stalled")).1 = none :=
  closeWithError_preserves_error
    ⟨none, some (GoErr.base "close failed"), some (GoErr.base "send failed"), none⟩
    (GoErr.base "stalled") rfl

/-! ## Claim C6 -/

/-- C6: in `OpenPushDataChannel`, when the channel record was created but the
outbound send of the `NewRequest` fails, the channel is moved to the failing
state via an `Error` event carrying the wrapped send error, the push-monitor
entry created for it (when the monitor is enabled) is shut down, and the
already-allocated channel id is still returned to the caller alongside the
send error. -/
theorem openPush_send_failure (env : OpenPushEnv) (e : GoErr)
    (h1 : env.newRequestErr = none) (h2 : env.createNewErr = none)
    (h3 : env.sendErr = some e) :
    (openPushDataChannel env).1 = env.chid ∧
    (openPushDataChannel env).2.1 = some (GoErr.wrap "Unable to send request" e) ∧
    OpenPushEffect.fsmError (GoErr.wrap "Unable to send request" e)
      ∈ (openPushDataChannel env).2.2 ∧
    (env.monitorEnabled = true →
      (OpenPushEffect.monitorAddChannel ∈ (openPushDataChannel env).2.2 ∧
       OpenPushEffect.monitorShutdown ∈ (openPushDataChannel env).2.2)) := by
  obtain ⟨nr, cn, chid, tc, mon, se⟩ := env
  simp only at h1 h2 h3
  subst h1
  subst h2
  subst h3
  cases tc <;> cases mon <;> simp [openPushDataChannel]

/-- Witness for C6 at a concrete environment with the monitor enabled and a
failing send. -/
theorem openPush_send_failure_witness :
    (openPushDataChannel
        ⟨none, none, ⟨"us", "them", 7⟩, false, true, some (GoErr.base "no route")⟩).1
      = ⟨"us", "them", 7⟩ ∧
    (openPushDataChannel
        ⟨none, none, ⟨"us", "them", 7⟩, false, true, some (GoErr.base "no route")⟩).2.1
      = some (GoErr.wrap "Unable to send request" (GoErr.base "no route")) ∧
    OpenPushEffect.fsmError (GoErr.wrap "Unable to send request" (GoErr.base "no route"))
      ∈ (openPushDataChannel
          ⟨none, none, ⟨"us", "them", 7⟩, false, true, some (GoErr.base "no route")⟩).2.2 ∧
    (true = true →
      (OpenPushEffect.monitorAddChannel ∈ (openPushDataChannel
          ⟨none, none, ⟨"us", "them", 7⟩, false, true, some (GoErr.base "no route")⟩).2.2 ∧
       OpenPushEffect.monitorShutdown ∈ (openPushDataChannel
          ⟨none, none, ⟨"us", "them", 7⟩, false, true, some (GoErr.base "no route")⟩).2.2)) :=
  openPush_send_failure
    ⟨none, none, ⟨"us", "them", 7⟩, false, true, some (GoErr.base "no route")⟩
    (GoErr.base "no route") rfl rfl rfl

/-! ## Claim C7 -/

/-- C7: `SendVoucher` fails with an error (and records no voucher) when the
local peer is not the channel's initiator; in the success path it first
sends the `VoucherRequest` message and only then records `NewVoucher`; if
the send fails, no voucher is recorded and the wrapped send error is
returned. -/
theorem sendVoucher_initiator_and_order (env : SendVoucherEnv) (v : String) :
    (env.initiatorIsSelf = false →
      ((sendVoucher env v).1.isSome = true ∧
       ∀ w, SendVoucherEffect.recordNewVoucher w ∉ (sendVoucher env v).2)) ∧
    (env.getByIDErr = none → env.initiatorIsSelf = true →
     env.voucherRequestErr = none →
      ((env.sendErr = none →
         ((sendVoucher env v).2
            = [SendVoucherEffect.sendVoucherRequest v,
               SendVoucherEffect.recordNewVoucher v] ∧
          (sendVoucher env v).1 = env.newVoucherErr)) ∧
       (∀ e, env.sendErr = some e →
         ((sendVoucher env v).1 = some (GoErr.wrap "Unable to send request" e) ∧
          ∀ w, SendVoucherEffect.recordNewVoucher w ∉ (sendVoucher env v).2)))) := by
  obtain ⟨g, ini, vr, se, nv⟩ := env
  cases g <;> cases ini <;> cases vr <;> cases se <;>
    simp [sendVoucher]

/-- Witness for C7: a non-initiator call fails and records nothing; the
concrete success path sends then records. -/
theorem sendVoucher_initiator_and_order_witness :
    ((sendVoucher ⟨none, false, none, none, none⟩ "v1").1.isSome = true ∧
     ∀ w, SendVoucherEffect.recordNewVoucher w
        ∉ (sendVoucher ⟨none, false, none, none, none⟩ "v1").2) ∧
    ((sendVoucher ⟨none, true, none, none, none⟩ "v1").2
        = [SendVoucherEffect.sendVoucherRequest "v1",
           SendVoucherEffect.recordNewVoucher "v1"] ∧
     (sendVoucher ⟨none, true, none, none, none⟩ "v1").1 = none) :=
  ⟨(sendVoucher_initiator_and_order ⟨none, false, none, none, none⟩ "v1").1 rfl,
   ((sendVoucher_initiator_and_order ⟨none, true, none, none, none⟩ "v1").2
      rfl rfl rfl).1 rfl⟩

/-! ## Claim C8 -/

/-- C8: for every non-terminal, non-cleaning-up channel, the restart role
computed from `(isPull, initiator == self)` is exactly `(false, true) →`
push creator, `(false, false) →` push receiver, `(true, true) →` pull
creator, `(true, false) →` pull receiver, and `RestartDataTransferChannel`
dispatches the corresponding restart action for that role. -/
theorem restart_role_dispatch (status : Status)
    (h1 : IsChannelTerminated status = false)
    (h2 : IsChannelCleaningUp status = false) :
    (channelDataTransferType false true
        = ChannelDataTransferType.ManagerPeerCreatePush ∧
     channelDataTransferType false false
        = ChannelDataTransferType.ManagerPeerReceivePush ∧
     channelDataTransferType true true
        = ChannelDataTransferType.ManagerPeerCreatePull ∧
     channelDataTransferType true false
        = ChannelDataTransferType.ManagerPeerReceivePull) ∧
    (restartDataTransferChannel none status false true
        = (none, RestartDispatch.openPushRestartChannel) ∧
     restartDataTransferChannel none status false false
        = (none, RestartDispatch.restartManagerPeerReceivePush) ∧
     restartDataTransferChannel none status true true
        = (none, RestartDispatch.openPullRestartChannel) ∧
     restartDataTransferChannel none status true false
        = (none, RestartDispatch.restartManagerPeerReceivePull)) := by
  refine ⟨⟨rfl, rfl, rfl, rfl⟩, ?_⟩
  simp [restartDataTransferChannel, h1, h2, channelDataTransferType]

/-- Witness for C8 at the `Ongoing` status. -/
theorem restart_role_dispatch_witness :
    (channelDataTransferType false true
        = ChannelDataTransferType.ManagerPeerCreatePush ∧
     channelDataTransferType false false
        = ChannelDataTransferType.ManagerPeerReceivePush ∧
     channelDataTransferType true true
        = ChannelDataTransferType.ManagerPeerCreatePull ∧
     channelDataTransferType true false
        = ChannelDataTransferType.ManagerPeerReceivePull) ∧
    (restartDataTransferChannel none Status.Ongoing false true
        = (none, RestartDispatch.openPushRestartChannel) ∧
     restartDataTransferChannel none Status.Ongoing false false
        = (none, RestartDispatch.restartManagerPeerReceivePush) ∧
     restartDataTransferChannel none Status.Ongoing true true
        = (none, RestartDispatch.openPullRestartChannel) ∧
     restartDataTransferChannel none Status.Ongoing true false
        = (none, RestartDispatch.restartManagerPeerReceivePull)) :=
  restart_role_dispatch Status.Ongoing rfl rfl

/-! ## Claim C10 -/

/-- C10: with a nil push-monitor configuration, `NewMonitor` accepts the
config (construction returns normally), the monitor is disabled, `AddChannel`
returns nil and records nothing for every channel, `Start` does not spawn
the run loop (so no data-rate checks run), and `OpenPushDataChannel`'s
send-failure path — which guards the nil monitored-channel handle — never
performs a monitor shutdown (or add), so opening a push channel with the
monitor disabled never dereferences the nil handle. -/
theorem monitor_disabled_safe :
    (newMonitor none = some ⟨none, []⟩) ∧
    (∀ m : Monitor, m.cfg = none →
      (m.enabled = false ∧
       m.startsRunLoop = false ∧
       ∀ chid, (m.addChannel chid).2 = none ∧ (m.addChannel chid).1 = m)) ∧
    (∀ env : OpenPushEnv, env.monitorEnabled = false →
      (OpenPushEffect.monitorShutdown ∉ (openPushDataChannel env).2.2 ∧
       OpenPushEffect.monitorAddChannel ∉ (openPushDataChannel env).2.2)) := by
  refine ⟨rfl, ?_, ?_⟩
  · intro m hm
    obtain ⟨c, chans⟩ := m
    simp only at hm
    subst hm
    exact ⟨rfl, rfl, fun chid => ⟨rfl, rfl⟩⟩
  · intro env hmon
    obtain ⟨nr, cn, chid, tc, mon, se⟩ := env
    simp only at hmon
    subst hmon
    cases nr <;> cases cn <;> cases tc <;> cases se <;>
      simp [openPushDataChannel]

/-- Witness for C10: a disabled monitor is not enabled, adds no channels, and
a failing send on a push open with the monitor disabled produces no monitor
shutdown effect. -/
theorem monitor_disabled_safe_witness :
    Monitor.enabled ⟨none, []⟩ = false ∧
    (Monitor.addChannel ⟨none, []⟩ ⟨"us", "them", 1⟩).2 = none ∧
    OpenPushEffect.monitorShutdown ∉
      (openPushDataChannel
        ⟨none, none, ⟨"us", "them", 1⟩, false, false, some (GoErr.base "no route")⟩).2.2 :=
  ⟨(monitor_disabled_safe.2.1 ⟨none, []⟩ rfl).1,
   ((monitor_disabled_safe.2.1 ⟨none, []⟩ rfl).2.2 ⟨"us", "them", 1⟩).1,
   (monitor_disabled_safe.2.2
     ⟨none, none, ⟨"us", "them", 1⟩, false, false, some (GoErr.base "no route")⟩ rfl).1⟩

end DataTransfer
